import Mathlib

/-!
Verification of the payload-reconciliation and discount-allocation engine of
the Z316 sales data pipeline (`data_transformation/sales_to_bq/main.py`).

The Python code is shallowly embedded over exact rational arithmetic (`ℚ`):
Python `float` values become rationals, and Python's `ZeroDivisionError`
(float division by zero raises in Python, it does not produce infinity)
becomes `Except.error Err.zeroDivision`.  Numeric payload fields that the
code converts with `float(...)` are modelled as rationals directly; string
pass-through fields that the code copies verbatim into the output rows
(uuid, customer and salesperson attributes, timestamps) are omitted from
the row models since no arithmetic touches them.
-/

set_option maxHeartbeats 1000000

namespace Z316

/-- Exceptions raised by the embedded code: Python's `ZeroDivisionError`,
and the `Exception` raised by `insert_rows_to_table` when the warehouse
sink reports errors. -/
inductive Err where
  | zeroDivision
  | insertFailure
deriving DecidableEq

instance {ε α : Type} [DecidableEq ε] [DecidableEq α] : DecidableEq (Except ε α) := fun a b =>
  match a, b with
  | Except.error e, Except.error f =>
    if h : e = f then isTrue (by rw [h])
    else isFalse (fun hh => by cases hh; exact h rfl)
  | Except.error _, Except.ok _ => isFalse (fun hh => Except.noConfusion hh)
  | Except.ok _, Except.error _ => isFalse (fun hh => Except.noConfusion hh)
  | Except.ok x, Except.ok y =>
    if h : x = y then isTrue (by rw [h])
    else isFalse (fun hh => by cases hh; exact h rfl)

/-- Python division on floats: raises `ZeroDivisionError` when the divisor
is zero, otherwise returns the quotient. -/
def pydiv (a b : ℚ) : Except Err ℚ :=
  if b = 0 then Except.error Err.zeroDivision else Except.ok (a / b)

/-- One line item of the order-detail payload (`pdv_pedido_data['itens']`):
product id, description, unit value (`valor`), quantity and intrinsic
discount percentage (`desconto`), the numeric fields already converted the
way the code converts them with `float(...)`. -/
structure Item where
  idProduto : String
  descricao : String
  valor : ℚ
  quantidade : ℚ
  desconto : ℚ
deriving DecidableEq

/-- One product catalog record (`produto_data[i]['retorno']['produto']`),
flattened to the three fields the code reads. -/
structure Produto where
  id : String
  preco_custo : ℚ
  categoria : String
deriving DecidableEq

/-- The order-detail payload (`pdv_pedido_data`), restricted to the fields
the arithmetic reads: the line items, the order-level discount string
`desconto`, and the numeric `totalProdutos` and `totalVenda` figures. -/
structure Pedido where
  itens : List Item
  desconto : String
  totalProdutos : ℚ
  totalVenda : ℚ
deriving DecidableEq

/-- Model of Python `float(s)` restricted to plain decimal numerals: an
optional sign, then digits with at most one decimal point and at least one
digit.  Exponents, `inf`, `nan`, underscores and surrounding whitespace are
outside the model.  Returns `none` where Python raises `ValueError`.
Helper: numeric value of a digit string. -/
def digitsVal (l : List Char) : ℕ :=
  l.foldl (fun a c => 10 * a + (c.toNat - 48)) 0

/-- Unsigned part of the `float(s)` model: digits, optionally followed by a
decimal point and further digits; at least one digit overall. -/
def parseUnsigned (l : List Char) : Option ℚ :=
  let ip := l.takeWhile Char.isDigit
  let rest := l.dropWhile Char.isDigit
  match rest with
  | [] => if ip = [] then none else some (digitsVal ip)
  | '.' :: fp =>
    if fp.all Char.isDigit ∧ (ip ≠ [] ∨ fp ≠ []) then
      some ((digitsVal ip : ℚ) + (digitsVal fp : ℚ) / (10 : ℚ) ^ fp.length)
    else none
  | _ => none

/-- Model of Python `float(s)` on plain decimal numerals (see
`parseUnsigned`). -/
def parsePyFloat (s : String) : Option ℚ :=
  match s.data with
  | '+' :: rest => parseUnsigned rest
  | '-' :: rest => (parseUnsigned rest).map Neg.neg
  | l => parseUnsigned l

/-- Model of Python `s.replace('%', '')`: every `%` character removed. -/
def replacePercent (s : String) : String :=
  String.mk (s.data.filter (fun c => c ≠ '%'))

/-- Model of Python `s.replace(',', '.')`: every comma becomes a dot. -/
def replaceComma (s : String) : String :=
  String.mk (s.data.map (fun c => if c = ',' then '.' else c))

/-- `calculate_pedido_discount` (main.py lines 120-132): percentage strings
(containing `%`) yield `pct/100 * total_produtos`, other strings are parsed
with `,` replaced by `.`; the result is floored at 0, and a `ValueError`
from `float(...)` is caught and turned into 0. -/
def calculate_pedido_discount (desconto_pedido_str : String) (total_produtos : ℚ) : ℚ :=
  if desconto_pedido_str.data.contains '%' then
    match parsePyFloat (replacePercent desconto_pedido_str) with
    | some pct => max 0 (pct / 100 * total_produtos)
    | none => 0
  else
    match parsePyFloat (replaceComma desconto_pedido_str) with
    | some v => max 0 v
    | none => 0

/-- `extract_total_discount` (main.py lines 142-154): same computation as
`calculate_pedido_discount`, reading `desconto` and `totalProdutos` from
the order payload. -/
def extract_total_discount (pdv_pedido_data : Pedido) : ℚ :=
  if pdv_pedido_data.desconto.data.contains '%' then
    match parsePyFloat (replacePercent pdv_pedido_data.desconto) with
    | some pct => max 0 (pct / 100 * pdv_pedido_data.totalProdutos)
    | none => 0
  else
    match parsePyFloat (replaceComma pdv_pedido_data.desconto) with
    | some v => max 0 v
    | none => 0

/-- `calculate_total_pre_discount_value` (main.py lines 135-139): running
sum of `valor * quantidade` over the order's items. -/
def calculate_total_pre_discount_value (pdv_pedido_data : Pedido) : ℚ :=
  pdv_pedido_data.itens.foldl (fun acc it => acc + it.valor * it.quantidade) 0

/-- `calculate_proportional_discount` (main.py lines 157-160): the item's
contribution percentage `item_pre / total_pre` times the total discount.
The division raises `ZeroDivisionError` when `total_pre` is 0 (line 158
has no special case). -/
def calculate_proportional_discount (item_pre_discount_value total_pre_discount_value total_discount : ℚ) :
    Except Err ℚ :=
  match pydiv item_pre_discount_value total_pre_discount_value with
  | Except.error e => Except.error e
  | Except.ok contribution_percentage => Except.ok (total_discount * contribution_percentage)

/-- `calculate_item_discount` (main.py lines 163-165):
`item_valor / (1 - item_desconto/100) - item_valor`; the division raises
`ZeroDivisionError` when `item_desconto = 100`. -/
def calculate_item_discount (item_valor item_desconto : ℚ) : Except Err ℚ :=
  match pydiv item_valor (1 - item_desconto / 100) with
  | Except.error e => Except.error e
  | Except.ok q => Except.ok (q - item_valor)

/-- `calculate_total_product_cost` (main.py lines 89-100): sum of
`preco_custo * quantidade` over the items whose product id resolves in
`produto_data`; unresolvable items are skipped. -/
def calculate_total_product_cost (produto_data : List Produto) (pdv_pedido_data : Pedido) : ℚ :=
  pdv_pedido_data.itens.foldl
    (fun acc it =>
      match produto_data.find? (fun p => p.id == it.idProduto) with
      | some p => acc + p.preco_custo * it.quantidade
      | none => acc) 0

/-- Loop body accumulator of `calculate_total_product_value_without_discount`
(main.py lines 103-110): each item contributes
`valor / (1 - desconto/100)`; the division can raise. -/
def sum_sem_desconto_go : List Item → ℚ → Except Err ℚ
  | [], acc => Except.ok acc
  | it :: rest, acc =>
    match pydiv it.valor (1 - it.desconto / 100) with
    | Except.error e => Except.error e
    | Except.ok v => sum_sem_desconto_go rest (acc + v)

/-- `calculate_total_product_value_without_discount` (main.py lines
103-110): sum over all items (resolvable or not) of the per-unit
pre-discount value, with no multiplication by quantity. -/
def calculate_total_product_value_without_discount (pdv_pedido_data : Pedido) : Except Err ℚ :=
  sum_sem_desconto_go pdv_pedido_data.itens 0

/-- Characters that Python `str.strip()` removes at both ends (the ASCII
whitespace the payloads can contain). -/
def isStripChar (c : Char) : Bool :=
  c = ' ' ∨ c = '\t' ∨ c = '\n' ∨ c = '\r'

/-- Model of Python `s.strip()` on a character list. -/
def stripChars (l : List Char) : List Char :=
  ((l.dropWhile isStripChar).reverse.dropWhile isStripChar).reverse

/-- The category separator `" >> "` as a character list. -/
def sepChars : List Char :=
  [' ', '>', '>', ' ']

/-- Model of Python `categoria.find(' >> ')` combined with the two slices
`categoria[:split_index]` and `categoria[split_index + 4:]`: splits at the
first occurrence of the separator, or returns `none` when `find` yields
`-1`. -/
def splitAtSep : List Char → Option (List Char × List Char)
  | [] => none
  | c :: rest =>
    if (c :: rest).take 4 = sepChars then some ([], (c :: rest).drop 4)
    else
      match splitAtSep rest with
      | some p => some (c :: p.1, p.2)
      | none => none

/-- Category handling of `process_item` (main.py lines 177-184): when the
separator `" >> "` occurs, both slices are stripped; otherwise the whole
string (unstripped) is the principal category and the secondary category is
empty. -/
def split_categoria (categoria : String) : String × String :=
  match splitAtSep categoria.data with
  | some p => (String.mk (stripChars p.1), String.mk (stripChars p.2))
  | none => (categoria, "")

/-- The dictionary returned by `process_item` (main.py lines 200-220),
restricted to the fields carried into the line-item fact row by
`create_itens_pedido_row` that the arithmetic produces. -/
structure ItemData where
  produto_id : String
  produto_nome : String
  produto_valor_custo_und : ℚ
  produto_categoria_principal : String
  produto_categoria_secundaria : String
  produto_quantidade : ℚ
  valor_sem_desconto_und : ℚ
  valor_com_desconto_und : ℚ
  produto_valor_lucro_und : ℚ
  desconto_produto_und : ℚ
  desconto_produto : ℚ
  desconto_pedido_und : ℚ
  desconto_pedido : ℚ
  desconto_total_und : ℚ
  desconto_total : ℚ
  total_produto_valor_sem_desconto : ℚ
  total_produto_valor_faturado : ℚ
  total_produto_valor_custo : ℚ
  total_produto_valor_lucro : ℚ
deriving DecidableEq

/-- `process_item` (main.py lines 168-221): `Except.ok none` when the
product id does not resolve (the Python function returns `None`), the
populated dictionary on success, and `Except.error` when one of the
divisions on lines 186, 187, 190 or 191 raises. -/
def process_item (item : Item) (produto_data : List Produto)
    (total_pre_discount_value total_discount : ℚ) : Except Err (Option ItemData) :=
  match produto_data.find? (fun p => p.id == item.idProduto) with
  | none => Except.ok none
  | some produto =>
    let produto_valor_custo_und := produto.preco_custo
    let pc := split_categoria produto.categoria
    let produto_quantidade := item.quantidade
    match pydiv item.valor (1 - item.desconto / 100) with
    | Except.error e => Except.error e
    | Except.ok valor_sem_desconto_und =>
      match calculate_item_discount item.valor item.desconto with
      | Except.error e => Except.error e
      | Except.ok desconto_produto_und =>
        let desconto_produto := desconto_produto_und * produto_quantidade
        let item_pre_discount_value := item.valor * item.quantidade
        match calculate_proportional_discount item_pre_discount_value total_pre_discount_value total_discount with
        | Except.error e => Except.error e
        | Except.ok desconto_pedido =>
          match pydiv desconto_pedido produto_quantidade with
          | Except.error e => Except.error e
          | Except.ok desconto_pedido_und =>
            let desconto_total_und := desconto_produto_und + desconto_pedido_und
            let desconto_total := desconto_produto + desconto_pedido
            let valor_com_desconto_und := valor_sem_desconto_und - desconto_produto_und - desconto_pedido_und
            let produto_valor_lucro_und := valor_com_desconto_und - produto_valor_custo_und
            Except.ok (some {
              produto_id := item.idProduto
              produto_nome := item.descricao
              produto_valor_custo_und := produto_valor_custo_und
              produto_categoria_principal := pc.1
              produto_categoria_secundaria := pc.2
              produto_quantidade := produto_quantidade
              valor_sem_desconto_und := valor_sem_desconto_und
              valor_com_desconto_und := valor_com_desconto_und
              produto_valor_lucro_und := produto_valor_lucro_und
              desconto_produto_und := desconto_produto_und
              desconto_produto := desconto_produto
              desconto_pedido_und := desconto_pedido_und
              desconto_pedido := desconto_pedido
              desconto_total_und := desconto_total_und
              desconto_total := desconto_total
              total_produto_valor_sem_desconto := valor_sem_desconto_und * produto_quantidade
              total_produto_valor_faturado := valor_com_desconto_und * produto_quantidade
              total_produto_valor_custo := produto_valor_custo_und * produto_quantidade
              total_produto_valor_lucro := valor_com_desconto_und * produto_quantidade - produto_valor_custo_und * produto_quantidade })

/-- The item loop of `process_pubsub_message` (main.py lines 347-354): each
item is processed in order, `None` results are skipped, and an exception
aborts the whole pass. -/
def processItems (itens : List Item) (produto_data : List Produto)
    (total_pre_discount_value total_discount : ℚ) : Except Err (List ItemData) :=
  match itens with
  | [] => Except.ok []
  | it :: rest =>
    match process_item it produto_data total_pre_discount_value total_discount with
    | Except.error e => Except.error e
    | Except.ok none => processItems rest produto_data total_pre_discount_value total_discount
    | Except.ok (some d) =>
      match processItems rest produto_data total_pre_discount_value total_discount with
      | Except.error e => Except.error e
      | Except.ok l => Except.ok (d :: l)

/-- The numeric fields of the order fact row built by `create_pedidos_row`
(main.py lines 336-359); the verbatim string fields are omitted. -/
structure PedidosRow where
  valor_produtos_custo : ℚ
  valor_produtos_sem_desconto : ℚ
  total_desconto_produtos : ℚ
  desconto_pedido : ℚ
  desconto_total : ℚ
  valor_faturado : ℚ
  valor_lucro : ℚ
deriving DecidableEq

/-- The two row sets one pass of `process_pubsub_message` assembles before
handing them to the warehouse sink. -/
structure PassRows where
  pedidos_row : PedidosRow
  itens_pedido_rows : List ItemData
deriving DecidableEq

/-- The computation phase of `process_pubsub_message` (main.py lines
336-359): everything from the numeric aggregates down to the assembled
rows, in source order, with the first exception aborting the pass. -/
def process_pedido (pdv_pedido_data : Pedido) (produto_data : List Produto) : Except Err PassRows :=
  let valor_produtos_custo := calculate_total_product_cost produto_data pdv_pedido_data
  match calculate_total_product_value_without_discount pdv_pedido_data with
  | Except.error e => Except.error e
  | Except.ok valor_produtos_sem_desconto =>
    let valor_faturado := pdv_pedido_data.totalVenda
    let valor_lucro := valor_faturado - valor_produtos_custo
    let desconto_pedido := calculate_pedido_discount pdv_pedido_data.desconto pdv_pedido_data.totalProdutos
    let total_pre_discount_value := calculate_total_pre_discount_value pdv_pedido_data
    let total_discount := extract_total_discount pdv_pedido_data
    match processItems pdv_pedido_data.itens produto_data total_pre_discount_value total_discount with
    | Except.error e => Except.error e
    | Except.ok itens_pedido_rows =>
      let total_desconto_produtos := (itens_pedido_rows.map (fun r => r.desconto_produto)).sum
      Except.ok {
        pedidos_row := {
          valor_produtos_custo := valor_produtos_custo
          valor_produtos_sem_desconto := valor_produtos_sem_desconto
          total_desconto_produtos := total_desconto_produtos
          desconto_pedido := desconto_pedido
          desconto_total := total_desconto_produtos + desconto_pedido
          valor_faturado := valor_faturado
          valor_lucro := valor_lucro }
        itens_pedido_rows := itens_pedido_rows }

/-- A batch handed to the warehouse sink: either the single order fact row
or the list of line-item fact rows. -/
inductive Batch where
  | pedidos (row : PedidosRow)
  | itens (rows : List ItemData)
deriving DecidableEq

/-- Whether each of the two `insert_rows_to_table` calls of the pass fails
(the sink returning errors makes the function raise, main.py lines
309-315). -/
structure SinkBehavior where
  pedidosInsertFails : Bool
  itensInsertFails : Bool
deriving DecidableEq

/-- `insert_rows_to_table` (main.py lines 309-315) on the modelled sink:
appends the batch to the written log, or raises without writing. -/
def insert_rows_to_table (fails : Bool) (written : List Batch) (batch : Batch) : Except Err (List Batch) :=
  if fails then Except.error Err.insertFailure else Except.ok (written ++ [batch])

/-- One full pass of `process_pubsub_message`: the computation phase
followed by the two sequential inserts (main.py lines 364-365).  Returns
the pass outcome and the batches the sink actually received. -/
def run_pass (pdv_pedido_data : Pedido) (produto_data : List Produto) (sink : SinkBehavior) :
    Except Err Unit × List Batch :=
  match process_pedido pdv_pedido_data produto_data with
  | Except.error e => (Except.error e, [])
  | Except.ok rows =>
    match insert_rows_to_table sink.pedidosInsertFails [] (Batch.pedidos rows.pedidos_row) with
    | Except.error e => (Except.error e, [])
    | Except.ok written1 =>
      match insert_rows_to_table sink.itensInsertFails written1 (Batch.itens rows.itens_pedido_rows) with
      | Except.error e => (Except.error e, written1)
      | Except.ok written2 => (Except.ok (), written2)

/-- Greedy numeral head of a character list: digits, optionally followed by
one decimal point and further digits (helper for `claimOrderDiscount`). -/
def numericHeadCore (r : List Char) : List Char :=
  let d1 := r.takeWhile Char.isDigit
  let r1 := r.dropWhile Char.isDigit
  match r1 with
  | '.' :: r2 => d1 ++ '.' :: r2.takeWhile Char.isDigit
  | _ => d1

/-- Longest numeral prefix of a string: an optional sign followed by the
greedy numeral head. -/
def numericHead (s : String) : String :=
  match s.data with
  | '+' :: r => String.mk ('+' :: numericHeadCore r)
  | '-' :: r => String.mk ('-' :: numericHeadCore r)
  | r => String.mk (numericHeadCore r)

/-- Modelled from the spec claim's words, for comparison with the source
function `calculate_pedido_discount`: when the string contains `%` the
percentage `pct` is "the numeric prefix of s" rather than the whole string
with `%` characters removed; otherwise the claim matches the source's
absolute branch. -/
def claimOrderDiscount (s : String) (totalProductsValue : ℚ) : ℚ :=
  if s.data.contains '%' then
    match parsePyFloat (numericHead s) with
    | some pct => max 0 (pct / 100 * totalProductsValue)
    | none => 0
  else
    match parsePyFloat (replaceComma s) with
    | some v => max 0 v
    | none => 0

/-- Sample order for the end-to-end instances: one fully resolvable item
with unit value 100, quantity 1 and no intrinsic discount. -/
def sampleItem : Item :=
  { idProduto := "p1", descricao := "Produto", valor := 100, quantidade := 1, desconto := 0 }

/-- Catalog record resolving `sampleItem`. -/
def sampleProduto : Produto :=
  { id := "p1", preco_custo := 40, categoria := "A >> B" }

/-- Sample order payload around `sampleItem`. -/
def samplePedido : Pedido :=
  { itens := [sampleItem], desconto := "0", totalProdutos := 100, totalVenda := 100 }

/-- Catalog list resolving every item of `samplePedido`. -/
def sampleCatalog : List Produto :=
  [sampleProduto]

/-- The per-item order-discount allocations of one order, in item order:
`calculate_proportional_discount` applied to `valor * quantidade` of each
line item, exactly as `process_item` does on line 189-190.  This is the
summation the allocation invariant quantifies over. -/
def alloc_list (itens : List Item) (total_pre_discount_value total_discount : ℚ) :
    Except Err (List ℚ) :=
  match itens with
  | [] => Except.ok []
  | it :: rest =>
    match calculate_proportional_discount (it.valor * it.quantidade) total_pre_discount_value total_discount with
    | Except.error e => Except.error e
    | Except.ok a =>
      match alloc_list rest total_pre_discount_value total_discount with
      | Except.error e => Except.error e
      | Except.ok l => Except.ok (a :: l)

/-- Whether the separator `" >> "` occurs somewhere in a character list
(helper predicate for characterising `split_categoria`). -/
def occursSep : List Char → Bool
  | [] => false
  | c :: rest => if (c :: rest).take 4 = sepChars then true else occursSep rest

/-- The order fact row `process_pedido` produces for `samplePedido`. -/
def sampleRow : PedidosRow :=
  { valor_produtos_custo := 40, valor_produtos_sem_desconto := 100,
    total_desconto_produtos := 0, desconto_pedido := 0, desconto_total := 0,
    valor_faturado := 100, valor_lucro := 60 }

/-- The line-item fact row `process_item` produces for `sampleItem`. -/
def sampleItemData : ItemData :=
  { produto_id := "p1", produto_nome := "Produto", produto_valor_custo_und := 40,
    produto_categoria_principal := "A", produto_categoria_secundaria := "B",
    produto_quantidade := 1, valor_sem_desconto_und := 100, valor_com_desconto_und := 100,
    produto_valor_lucro_und := 60, desconto_produto_und := 0, desconto_produto := 0,
    desconto_pedido_und := 0, desconto_pedido := 0, desconto_total_und := 0,
    desconto_total := 0, total_produto_valor_sem_desconto := 100,
    total_produto_valor_faturado := 100, total_produto_valor_custo := 40,
    total_produto_valor_lucro := 60 }

/-- An item carrying a 10% intrinsic discount and quantity 2, priced 100. -/
def discountedItem : Item :=
  { idProduto := "p2", descricao := "Produto B", valor := 100, quantidade := 2, desconto := 10 }

/-- Catalog record resolving `discountedItem`. -/
def discountedProduto : Produto :=
  { id := "p2", preco_custo := 30, categoria := "Roupas >> Camisas" }

/-- The line-item fact row `process_item` produces for `discountedItem`
with `total_pre_discount_value = 200` and `total_discount = 20`. -/
def discountedItemData : ItemData :=
  { produto_id := "p2", produto_nome := "Produto B", produto_valor_custo_und := 30,
    produto_categoria_principal := "Roupas", produto_categoria_secundaria := "Camisas",
    produto_quantidade := 2, valor_sem_desconto_und := 1000 / 9, valor_com_desconto_und := 90,
    produto_valor_lucro_und := 60, desconto_produto_und := 100 / 9, desconto_produto := 200 / 9,
    desconto_pedido_und := 10, desconto_pedido := 20, desconto_total_und := 190 / 9,
    desconto_total := 380 / 9, total_produto_valor_sem_desconto := 2000 / 9,
    total_produto_valor_faturado := 180, total_produto_valor_custo := 60,
    total_produto_valor_lucro := 120 }

/-- A two-item order where only the first product id resolves in
`oneProductCatalog`. -/
def twoItemPedido : Pedido :=
  { itens := [{ idProduto := "p1", descricao := "A", valor := 100, quantidade := 1, desconto := 0 },
              { idProduto := "missing", descricao := "B", valor := 50, quantidade := 1, desconto := 0 }],
    desconto := "0", totalProdutos := 150, totalVenda := 150 }

/-- Catalog resolving only the first item of `twoItemPedido`. -/
def oneProductCatalog : List Produto :=
  [{ id := "p1", preco_custo := 40, categoria := "X >> Y" }]

/-- The single line-item fact row `processItems` produces for
`twoItemPedido` against `oneProductCatalog`. -/
def twoItemRowData : ItemData :=
  { produto_id := "p1", produto_nome := "A", produto_valor_custo_und := 40,
    produto_categoria_principal := "X", produto_categoria_secundaria := "Y",
    produto_quantidade := 1, valor_sem_desconto_und := 100, valor_com_desconto_und := 100,
    produto_valor_lucro_und := 60, desconto_produto_und := 0, desconto_produto := 0,
    desconto_pedido_und := 0, desconto_pedido := 0, desconto_total_und := 0,
    desconto_total := 0, total_produto_valor_sem_desconto := 100,
    total_produto_valor_faturado := 100, total_produto_valor_custo := 40,
    total_produto_valor_lucro := 60 }

/-- An order whose only item is free: every `valor * quantidade` is 0, so
`calculate_total_pre_discount_value` is 0. -/
def freeItemsPedido : Pedido :=
  { itens := [{ idProduto := "p1", descricao := "Brinde", valor := 0, quantidade := 1, desconto := 0 }],
    desconto := "5", totalProdutos := 0, totalVenda := 0 }

/-- Catalog resolving the free item of `freeItemsPedido`. -/
def freeItemsCatalog : List Produto :=
  [{ id := "p1", preco_custo := 0, categoria := "Brindes" }]

/-- An order containing a resolvable line item with quantity 0. -/
def zeroQtyPedido : Pedido :=
  { itens := [{ idProduto := "p1", descricao := "Z", valor := 5, quantidade := 0, desconto := 0 }],
    desconto := "0", totalProdutos := 0, totalVenda := 0 }

/-- Catalog resolving the zero-quantity item of `zeroQtyPedido`. -/
def zeroQtyCatalog : List Produto :=
  [{ id := "p1", preco_custo := 1, categoria := "C" }]

/-- A fully resolvable order whose quantities are 2 and 1/2, chosen so
that the per-unit sums and the quantity-weighted sums coincide. -/
def halfQuantityPedido : Pedido :=
  { itens := [{ idProduto := "p1", descricao := "A", valor := 10, quantidade := 2, desconto := 0 },
              { idProduto := "p2", descricao := "B", valor := 20, quantidade := 1 / 2, desconto := 0 }],
    desconto := "0", totalProdutos := 30, totalVenda := 30 }

/-- Catalog resolving both items of `halfQuantityPedido`. -/
def halfQuantityCatalog : List Produto :=
  [{ id := "p1", preco_custo := 1, categoria := "C" },
   { id := "p2", preco_custo := 1, categoria := "C" }]

/-! ## General lemmas about the embedded functions -/

lemma pydiv_of_ne {b : ℚ} (a : ℚ) (h : b ≠ 0) : pydiv a b = Except.ok (a / b) := by
  simp [pydiv, h]

lemma pydiv_error {a b : ℚ} {e : Err} (h : pydiv a b = Except.error e) :
    e = Err.zeroDivision := by
  by_cases hb : b = 0
  · simp [pydiv, hb] at h
    exact h.symm
  · simp [pydiv, hb] at h

lemma foldl_add_eq {α : Type} (f : α → ℚ) (l : List α) (a : ℚ) :
    l.foldl (fun acc x => acc + f x) a = a + (l.map f).sum := by
  induction l generalizing a with
  | nil => simp
  | cons x rest ih => simp [ih, add_assoc]

lemma total_pre_discount_value_eq (P : Pedido) :
    calculate_total_pre_discount_value P = (P.itens.map (fun it => it.valor * it.quantidade)).sum := by
  simpa using foldl_add_eq (fun it => it.valor * it.quantidade) P.itens 0

lemma alloc_list_of_ne (itens : List Item) {tp : ℚ} (td : ℚ) (h : tp ≠ 0) :
    alloc_list itens tp td = Except.ok (itens.map (fun it => td * (it.valor * it.quantidade / tp))) := by
  induction itens with
  | nil => simp [alloc_list]
  | cons it rest ih => simp [alloc_list, calculate_proportional_discount, pydiv, h, ih]

lemma map_alloc_sum (l : List Item) (tp td : ℚ) :
    (l.map (fun it => td * (it.valor * it.quantidade / tp))).sum
      = td * ((l.map (fun it => it.valor * it.quantidade)).sum / tp) := by
  induction l with
  | nil => simp
  | cons it rest ih => simp [ih, add_div, mul_add]

/-! ## C1: proportional allocations sum back to the total order discount -/

/-- C1: for every order with at least one line item and a positive total
pre-discount value, the proportional allocations of the order-level
discount over all of the order's line items (with
`itemPreDiscountValue = valor * quantidade` summed by
`calculate_total_pre_discount_value`) all compute without error and sum to
exactly the total order discount.  In the exact rational model the
equality is exact, which implies the spec's 1e-6 relative floating-point
tolerance. -/
theorem allocation_sums_to_total (P : Pedido) (totalOrderDiscount : ℚ)
    (hne : P.itens ≠ [])
    (hpos : 0 < calculate_total_pre_discount_value P) :
    ∃ allocs : List ℚ,
      alloc_list P.itens (calculate_total_pre_discount_value P) totalOrderDiscount = Except.ok allocs ∧
      allocs.sum = totalOrderDiscount := by
  have htp : calculate_total_pre_discount_value P ≠ 0 := ne_of_gt hpos
  refine ⟨_, alloc_list_of_ne P.itens totalOrderDiscount htp, ?_⟩
  rw [map_alloc_sum, ← total_pre_discount_value_eq, div_self htp, mul_one]

/-- Witness for C1 on the spec's end-to-end scenario (items valued 100 and
50 at quantity 1, order discount 30): the hypotheses hold and the
allocations sum to 30. -/
theorem allocation_sums_to_total_witness :
    twoItemPedido.itens ≠ [] ∧ 0 < calculate_total_pre_discount_value twoItemPedido ∧
    ∃ allocs : List ℚ,
      alloc_list twoItemPedido.itens (calculate_total_pre_discount_value twoItemPedido) 30 = Except.ok allocs ∧
      allocs.sum = 30 :=
  ⟨by simp [twoItemPedido],
   by norm_num +decide [calculate_total_pre_discount_value, twoItemPedido],
   allocation_sums_to_total twoItemPedido 30 (by simp [twoItemPedido])
     (by norm_num +decide [calculate_total_pre_discount_value, twoItemPedido])⟩

/-! ## C3: the intrinsic-discount formula and its division guard -/

/-- C3: `calculate_item_discount` at `discountPercent = 100` raises
`ZeroDivisionError` (the computation fails rather than returning any
value, so no infinity or NaN can be produced), and at every
`discountPercent ≠ 100` it returns
`unitValue / (1 - discountPercent/100) - unitValue`. -/
theorem item_discount_guard_and_formula (unitValue : ℚ) :
    calculate_item_discount unitValue 100 = Except.error Err.zeroDivision ∧
    ∀ discountPercent : ℚ, discountPercent ≠ 100 →
      calculate_item_discount unitValue discountPercent =
        Except.ok (unitValue / (1 - discountPercent / 100) - unitValue) := by
  constructor
  · norm_num [calculate_item_discount, pydiv]
  · intro d hd
    have h1 : (1 : ℚ) - d / 100 ≠ 0 := by
      intro hc
      apply hd
      field_simp at hc
      linarith
    simp [calculate_item_discount, pydiv, h1]

/-- Witness for C3: the guard fires at `(50, 100)` and the spec's
round-trip example `(90, 10)` returns 10. -/
theorem item_discount_guard_and_formula_witness :
    calculate_item_discount 50 100 = Except.error Err.zeroDivision ∧
    calculate_item_discount 90 10 = Except.ok 10 := by
  constructor
  · exact (item_discount_guard_and_formula 50).1
  · have h := (item_discount_guard_and_formula 90).2 10 (by norm_num)
    have h2 : (90 : ℚ) / (1 - 10 / 100) - 90 = 10 := by norm_num
    rw [h, h2]

/-! ## C2: behaviour at `totalPreDiscountValue = 0` -/

/-- C2 evaluated at a failing input: for the order of free items
`freeItemsPedido`, the total pre-discount value is 0, and
`calculate_proportional_discount` raises `ZeroDivisionError` instead of
returning 0, so the whole order pass aborts: the code has no special case
for `totalPreDiscountValue == 0` at line 158. -/
theorem zero_total_value_divides_by_zero :
    calculate_total_pre_discount_value freeItemsPedido = 0 ∧
    calculate_proportional_discount (0 * 1) (calculate_total_pre_discount_value freeItemsPedido) 5 =
      Except.error Err.zeroDivision ∧
    process_pedido freeItemsPedido freeItemsCatalog = Except.error Err.zeroDivision := by
  refine ⟨?_, ?_, ?_⟩
  · norm_num +decide [calculate_total_pre_discount_value, freeItemsPedido]
  · norm_num +decide [calculate_total_pre_discount_value, freeItemsPedido,
      calculate_proportional_discount, pydiv]
  · norm_num +decide [process_pedido, processItems, process_item, pydiv,
      calculate_item_discount, calculate_proportional_discount,
      calculate_total_product_cost, calculate_total_product_value_without_discount,
      sum_sem_desconto_go, calculate_total_pre_discount_value, calculate_pedido_discount,
      extract_total_discount, parsePyFloat, parseUnsigned, digitsVal, replacePercent,
      replaceComma, split_categoria, splitAtSep, sepChars, stripChars, isStripChar,
      freeItemsPedido, freeItemsCatalog, List.find?]

/-! ## C4: parsing of the order-level discount string -/

/-- C4 counterexample: on the string `"1%5"` the code removes every `%`
character and parses `"15"`, yielding a discount of 150 on a total of
1000, while the claim's reading (the numeric prefix of the string, which
is `1`) yields 10. -/
theorem pedido_discount_numeric_head_counterexample :
    calculate_pedido_discount "1%5" 1000 = 150 ∧
    claimOrderDiscount "1%5" 1000 = 10 ∧
    (150 : ℚ) ≠ 10 := by
  refine ⟨?_, ?_, by norm_num⟩
  · simp +decide [calculate_pedido_discount, parsePyFloat, parseUnsigned, digitsVal,
      replacePercent, replaceComma]
    norm_num
  · simp +decide [claimOrderDiscount, parsePyFloat, parseUnsigned, digitsVal,
      numericHead, numericHeadCore, replaceComma]
    norm_num

/-- C4 amended: percentage strings are parsed with every `%` character
removed (not by taking the numeric prefix); otherwise the string is parsed
with `,` replaced by `.`; both branches floor the result at 0, an
unparseable string yields 0 in either branch, `extract_total_discount`
computes exactly the same function of the payload's `desconto` and
`totalProdutos` fields, and the claim's concrete instances
`("15%", 1000) ↦ 150` and `("12,50", v) ↦ 12.5` hold. -/
theorem pedido_discount_characterization :
    (∀ P : Pedido, extract_total_discount P = calculate_pedido_discount P.desconto P.totalProdutos) ∧
    (∀ (s : String) (total pct : ℚ), s.data.contains '%' = true →
        parsePyFloat (replacePercent s) = some pct →
        calculate_pedido_discount s total = max 0 (pct / 100 * total)) ∧
    (∀ (s : String) (total v : ℚ), s.data.contains '%' = false →
        parsePyFloat (replaceComma s) = some v →
        calculate_pedido_discount s total = max 0 v) ∧
    (∀ (s : String) (total : ℚ), s.data.contains '%' = true →
        parsePyFloat (replacePercent s) = none →
        calculate_pedido_discount s total = 0) ∧
    (∀ (s : String) (total : ℚ), s.data.contains '%' = false →
        parsePyFloat (replaceComma s) = none →
        calculate_pedido_discount s total = 0) ∧
    calculate_pedido_discount "15%" 1000 = 150 ∧
    (∀ v : ℚ, calculate_pedido_discount "12,50" v = 25 / 2) := by
  refine ⟨fun P => rfl, ?_, ?_, ?_, ?_, ?_, ?_⟩
  · intro s total pct hc hp
    simp only [calculate_pedido_discount, hc, hp, if_true]
  · intro s total v hc hp
    simp only [calculate_pedido_discount, hc, hp, Bool.false_eq_true, if_false]
  · intro s total hc hp
    simp only [calculate_pedido_discount, hc, hp, if_true]
  · intro s total hc hp
    simp only [calculate_pedido_discount, hc, hp, Bool.false_eq_true, if_false]
  · simp +decide [calculate_pedido_discount, parsePyFloat, parseUnsigned, digitsVal,
      replacePercent, replaceComma]
    norm_num
  · intro v
    simp +decide [calculate_pedido_discount, parsePyFloat, parseUnsigned, digitsVal,
      replacePercent, replaceComma]
    norm_num

/-- Witness for C4's amended characterization: the percentage branch at
`"15%"`, and the unparseable branch at `"abc"`. -/
theorem pedido_discount_characterization_witness :
    ("15%".data.contains '%') = true ∧
    parsePyFloat (replacePercent "15%") = some 15 ∧
    calculate_pedido_discount "15%" 1000 = max 0 (15 / 100 * 1000) ∧
    ("abc".data.contains '%') = false ∧
    parsePyFloat (replaceComma "abc") = none ∧
    calculate_pedido_discount "abc" 77 = 0 := by
  have hp15 : parsePyFloat (replacePercent "15%") = some 15 := by
    norm_num +decide [parsePyFloat, parseUnsigned, digitsVal, replacePercent]
  have hpabc : parsePyFloat (replaceComma "abc") = none := by
    norm_num +decide [parsePyFloat, parseUnsigned, digitsVal, replaceComma]
  exact ⟨by decide, hp15,
    pedido_discount_characterization.2.1 "15%" 1000 15 (by decide) hp15,
    by decide, hpabc,
    pedido_discount_characterization.2.2.2.2.1 "abc" 77 (by decide) hpabc⟩

/-! ## Characterisation of `process_item` -/

lemma process_item_find_none (item : Item) (PD : List Produto) (tp td : ℚ)
    (hf : PD.find? (fun p => p.id == item.idProduto) = none) :
    process_item item PD tp td = Except.ok none := by
  unfold process_item
  rw [hf]

lemma process_item_ok_some_eq (item : Item) (PD : List Produto) (tp td : ℚ)
    (produto : Produto) (d : ItemData)
    (hf : PD.find? (fun p => p.id == item.idProduto) = some produto)
    (h : process_item item PD tp td = Except.ok (some d)) :
    (1 : ℚ) - item.desconto / 100 ≠ 0 ∧ tp ≠ 0 ∧ item.quantidade ≠ 0 ∧
    d.produto_id = item.idProduto ∧
    d.produto_nome = item.descricao ∧
    d.produto_valor_custo_und = produto.preco_custo ∧
    d.produto_categoria_principal = (split_categoria produto.categoria).1 ∧
    d.produto_categoria_secundaria = (split_categoria produto.categoria).2 ∧
    d.produto_quantidade = item.quantidade ∧
    d.valor_sem_desconto_und = item.valor / (1 - item.desconto / 100) ∧
    d.desconto_produto_und = item.valor / (1 - item.desconto / 100) - item.valor ∧
    d.desconto_produto = d.desconto_produto_und * item.quantidade ∧
    d.desconto_pedido = td * (item.valor * item.quantidade / tp) ∧
    d.desconto_pedido_und = d.desconto_pedido / item.quantidade ∧
    d.desconto_total_und = d.desconto_produto_und + d.desconto_pedido_und ∧
    d.desconto_total = d.desconto_produto + d.desconto_pedido ∧
    d.valor_com_desconto_und = d.valor_sem_desconto_und - d.desconto_produto_und - d.desconto_pedido_und ∧
    d.produto_valor_lucro_und = d.valor_com_desconto_und - d.produto_valor_custo_und ∧
    d.total_produto_valor_sem_desconto = d.valor_sem_desconto_und * item.quantidade ∧
    d.total_produto_valor_faturado = d.valor_com_desconto_und * item.quantidade ∧
    d.total_produto_valor_custo = d.produto_valor_custo_und * item.quantidade ∧
    d.total_produto_valor_lucro = d.total_produto_valor_faturado - d.total_produto_valor_custo := by
  unfold process_item at h
  rw [hf] at h
  by_cases h1 : (1 : ℚ) - item.desconto / 100 = 0
  · simp [pydiv, h1] at h
  · simp only [calculate_item_discount, pydiv, if_neg h1] at h
    by_cases h2 : tp = 0
    · simp [calculate_proportional_discount, pydiv, h2] at h
    · simp only [calculate_proportional_discount, pydiv, if_neg h2] at h
      by_cases h3 : item.quantidade = 0
      · simp [h3] at h
      · simp only [if_neg h3, Except.ok.injEq, Option.some.injEq] at h
        subst h
        exact ⟨h1, h2, h3, rfl, rfl, rfl, rfl, rfl, rfl, rfl, rfl, rfl, rfl, rfl, rfl,
          rfl, rfl, rfl, rfl, rfl, rfl, rfl⟩

lemma process_item_of_find_some (item : Item) (PD : List Produto) (tp td : ℚ)
    (produto : Produto)
    (hf : PD.find? (fun p => p.id == item.idProduto) = some produto) :
    process_item item PD tp td = Except.error Err.zeroDivision ∨
    ∃ d, process_item item PD tp td = Except.ok (some d) := by
  unfold process_item
  rw [hf]
  by_cases h1 : (1 : ℚ) - item.desconto / 100 = 0
  · left
    simp [pydiv, h1]
  · by_cases h2 : tp = 0
    · left
      simp [calculate_item_discount, calculate_proportional_discount, pydiv, if_neg h1, h2]
    · by_cases h3 : item.quantidade = 0
      · left
        simp [calculate_item_discount, calculate_proportional_discount, pydiv, if_neg h1,
          if_neg h2, h3]
      · right
        simp only [calculate_item_discount, calculate_proportional_discount, pydiv,
          if_neg h1, if_neg h2, if_neg h3]
        exact ⟨_, rfl⟩

lemma process_item_ok_none_find (item : Item) (PD : List Produto) (tp td : ℚ)
    (h : process_item item PD tp td = Except.ok none) :
    PD.find? (fun p => p.id == item.idProduto) = none := by
  cases hf : PD.find? (fun p => p.id == item.idProduto) with
  | none => rfl
  | some produto =>
    rcases process_item_of_find_some item PD tp td produto hf with h2 | ⟨d, h2⟩
    · rw [h2] at h
      exact absurd h (by simp)
    · rw [h2] at h
      exact absurd h (by simp)

lemma process_item_error_zeroDiv (item : Item) (PD : List Produto) (tp td : ℚ) (e : Err)
    (h : process_item item PD tp td = Except.error e) :
    e = Err.zeroDivision := by
  cases hf : PD.find? (fun p => p.id == item.idProduto) with
  | none =>
    rw [process_item_find_none item PD tp td hf] at h
    exact absurd h (by simp)
  | some produto =>
    rcases process_item_of_find_some item PD tp td produto hf with h2 | ⟨d, h2⟩
    · rw [h2] at h
      simpa using h.symm
    · rw [h2] at h
      exact absurd h (by simp)

lemma process_item_zero_quantity (item : Item) (PD : List Produto) (tp td : ℚ)
    (produto : Produto)
    (hf : PD.find? (fun p => p.id == item.idProduto) = some produto)
    (hq : item.quantidade = 0) :
    process_item item PD tp td = Except.error Err.zeroDivision := by
  unfold process_item
  rw [hf]
  by_cases h1 : (1 : ℚ) - item.desconto / 100 = 0
  · simp [pydiv, h1]
  · by_cases h2 : tp = 0
    · simp [calculate_item_discount, calculate_proportional_discount, pydiv, if_neg h1, h2]
    · simp [calculate_item_discount, calculate_proportional_discount, pydiv, if_neg h1,
        if_neg h2, hq]

/-! ## Characterisation of the item loop and of `process_pedido` -/

lemma processItems_ok_length (itens : List Item) (PD : List Produto) (tp td : ℚ)
    (rows : List ItemData) (h : processItems itens PD tp td = Except.ok rows) :
    rows.length = (itens.filter (fun it => (PD.find? (fun p => p.id == it.idProduto)).isSome)).length := by
  induction itens generalizing rows with
  | nil =>
    simp only [processItems, Except.ok.injEq] at h
    subst h
    simp
  | cons it rest ih =>
    simp only [processItems] at h
    cases hp : process_item it PD tp td with
    | error e =>
      rw [hp] at h
      exact absurd h (by simp)
    | ok od =>
      rw [hp] at h
      cases od with
      | none =>
        have hf := process_item_ok_none_find it PD tp td hp
        simp [List.filter_cons, hf, ih rows h]
      | some d =>
        have hfs : (PD.find? (fun p => p.id == it.idProduto)).isSome = true := by
          cases hf2 : PD.find? (fun p => p.id == it.idProduto) with
          | none =>
            rw [process_item_find_none it PD tp td hf2] at hp
            exact absurd hp (by simp)
          | some produto => rfl
        cases hrest : processItems rest PD tp td with
        | error e =>
          rw [hrest] at h
          exact absurd h (by simp)
        | ok l =>
          rw [hrest] at h
          simp only [Except.ok.injEq] at h
          subst h
          simp [List.filter_cons, hfs, ih l hrest]

lemma processItems_ok_sem_map (itens : List Item) (PD : List Produto) (tp td : ℚ)
    (rows : List ItemData) (h : processItems itens PD tp td = Except.ok rows) :
    rows.map (fun r => r.total_produto_valor_sem_desconto)
      = (itens.filter (fun it => (PD.find? (fun p => p.id == it.idProduto)).isSome)).map
          (fun it => it.valor / (1 - it.desconto / 100) * it.quantidade) := by
  induction itens generalizing rows with
  | nil =>
    simp only [processItems, Except.ok.injEq] at h
    subst h
    simp
  | cons it rest ih =>
    simp only [processItems] at h
    cases hp : process_item it PD tp td with
    | error e =>
      rw [hp] at h
      exact absurd h (by simp)
    | ok od =>
      rw [hp] at h
      cases od with
      | none =>
        have hf := process_item_ok_none_find it PD tp td hp
        simp [List.filter_cons, hf, ih rows h]
      | some d =>
        cases hf2 : PD.find? (fun p => p.id == it.idProduto) with
        | none =>
          rw [process_item_find_none it PD tp td hf2] at hp
          exact absurd hp (by simp)
        | some produto =>
          cases hrest : processItems rest PD tp td with
          | error e =>
            rw [hrest] at h
            exact absurd h (by simp)
          | ok l =>
            rw [hrest] at h
            simp only [Except.ok.injEq] at h
            subst h
            obtain ⟨-, -, -, -, -, -, -, -, -, hsem, -, -, -, -, -, -, -, -, htsem, -, -, -⟩ :=
              process_item_ok_some_eq it PD tp td produto d hf2 hp
            simp [List.filter_cons, hf2, ih l hrest, htsem, hsem]

lemma processItems_zero_qty_error (itens : List Item) (PD : List Produto) (tp td : ℚ)
    (h : ∃ it ∈ itens, it.quantidade = 0 ∧
      (PD.find? (fun p => p.id == it.idProduto)).isSome = true) :
    processItems itens PD tp td = Except.error Err.zeroDivision := by
  induction itens with
  | nil => simp at h
  | cons it rest ih =>
    obtain ⟨w, hw, hq, hf⟩ := h
    simp only [List.mem_cons] at hw
    rcases hw with rfl | hw
    · obtain ⟨produto, hfp⟩ := Option.isSome_iff_exists.mp hf
      have herr := process_item_zero_quantity w PD tp td produto hfp hq
      simp [processItems, herr]
    · have htail := ih ⟨w, hw, hq, hf⟩
      simp only [processItems]
      cases hp : process_item it PD tp td with
      | error e =>
        rw [process_item_error_zeroDiv it PD tp td e hp]
      | ok od =>
        cases od with
        | none => exact htail
        | some d => rw [htail]

lemma sum_sem_desconto_go_ok (l : List Item) (acc t : ℚ)
    (h : sum_sem_desconto_go l acc = Except.ok t) :
    t = acc + (l.map (fun it => it.valor / (1 - it.desconto / 100))).sum := by
  induction l generalizing acc with
  | nil =>
    simp only [sum_sem_desconto_go, Except.ok.injEq] at h
    simp [← h]
  | cons it rest ih =>
    simp only [sum_sem_desconto_go] at h
    by_cases h1 : (1 : ℚ) - it.desconto / 100 = 0
    · simp [pydiv, h1] at h
    · simp only [pydiv, if_neg h1] at h
      rw [ih _ h]
      simp [add_assoc]

lemma sum_sem_desconto_go_error (l : List Item) (acc : ℚ) (e : Err)
    (h : sum_sem_desconto_go l acc = Except.error e) :
    e = Err.zeroDivision := by
  induction l generalizing acc with
  | nil => simp [sum_sem_desconto_go] at h
  | cons it rest ih =>
    simp only [sum_sem_desconto_go] at h
    by_cases h1 : (1 : ℚ) - it.desconto / 100 = 0
    · simp only [pydiv, if_pos h1, Except.error.injEq] at h
      exact h.symm
    · simp only [pydiv, if_neg h1] at h
      exact ih _ h

lemma process_pedido_ok_eq (P : Pedido) (PD : List Produto) (res : PassRows)
    (h : process_pedido P PD = Except.ok res) :
    ∃ v rows,
      calculate_total_product_value_without_discount P = Except.ok v ∧
      processItems P.itens PD (calculate_total_pre_discount_value P) (extract_total_discount P) =
        Except.ok rows ∧
      res = { pedidos_row := {
                valor_produtos_custo := calculate_total_product_cost PD P,
                valor_produtos_sem_desconto := v,
                total_desconto_produtos := (rows.map (fun r => r.desconto_produto)).sum,
                desconto_pedido := calculate_pedido_discount P.desconto P.totalProdutos,
                desconto_total := (rows.map (fun r => r.desconto_produto)).sum +
                  calculate_pedido_discount P.desconto P.totalProdutos,
                valor_faturado := P.totalVenda,
                valor_lucro := P.totalVenda - calculate_total_product_cost PD P },
              itens_pedido_rows := rows } := by
  unfold process_pedido at h
  dsimp only at h
  cases hsd : calculate_total_product_value_without_discount P with
  | error e =>
    rw [hsd] at h
    exact absurd h (by simp)
  | ok v =>
    rw [hsd] at h
    dsimp only at h
    cases hpi : processItems P.itens PD (calculate_total_pre_discount_value P)
        (extract_total_discount P) with
    | error e =>
      rw [hpi] at h
      exact absurd h (by simp)
    | ok rows =>
      rw [hpi] at h
      simp only [Except.ok.injEq] at h
      exact ⟨v, rows, rfl, rfl, h.symm⟩

lemma cost_foldl_eq (PD : List Produto) (l : List Item) (a : ℚ) :
    l.foldl (fun acc it =>
      match PD.find? (fun p => p.id == it.idProduto) with
      | some p => acc + p.preco_custo * it.quantidade
      | none => acc) a
    = a + ((l.filter (fun it => (PD.find? (fun p => p.id == it.idProduto)).isSome)).map
        (fun it =>
          match PD.find? (fun p => p.id == it.idProduto) with
          | some p => p.preco_custo * it.quantidade
          | none => 0)).sum := by
  induction l generalizing a with
  | nil => simp
  | cons it rest ih =>
    cases hf : PD.find? (fun p => p.id == it.idProduto) with
    | none => simp [hf, ih, List.filter_cons]
    | some p => simp [hf, ih, List.filter_cons, add_assoc]

/-! ## C5: the per-item and per-order profit equations -/

/-- C5: every emitted line-item fact (resolvable product, intrinsic
discount not 100, nonzero quantity — all implied by successful emission)
satisfies the unit-figure equations of the spec, with each item total
equal to the corresponding unit figure multiplied by the quantity; and at
order level the profit is the stated grand total `totalVenda` (taken from
the payload, not recomputed) minus the total product cost. -/
theorem line_item_and_order_equations :
    (∀ (item : Item) (PD : List Produto) (tp td : ℚ) (produto : Produto) (d : ItemData),
      PD.find? (fun p => p.id == item.idProduto) = some produto →
      process_item item PD tp td = Except.ok (some d) →
      d.produto_valor_custo_und = produto.preco_custo ∧
      d.valor_sem_desconto_und = item.valor / (1 - item.desconto / 100) ∧
      d.desconto_total_und =
        (item.valor / (1 - item.desconto / 100) - item.valor) + d.desconto_pedido / item.quantidade ∧
      d.valor_com_desconto_und = d.valor_sem_desconto_und - d.desconto_total_und ∧
      d.produto_valor_lucro_und = d.valor_com_desconto_und - d.produto_valor_custo_und ∧
      d.total_produto_valor_custo = d.produto_valor_custo_und * d.produto_quantidade ∧
      d.total_produto_valor_sem_desconto = d.valor_sem_desconto_und * d.produto_quantidade ∧
      d.total_produto_valor_faturado = d.valor_com_desconto_und * d.produto_quantidade ∧
      d.total_produto_valor_lucro = d.produto_valor_lucro_und * d.produto_quantidade ∧
      d.desconto_produto = d.desconto_produto_und * d.produto_quantidade ∧
      d.desconto_pedido = d.desconto_pedido_und * d.produto_quantidade ∧
      d.desconto_total = d.desconto_total_und * d.produto_quantidade) ∧
    (∀ (P : Pedido) (PD : List Produto) (res : PassRows),
      process_pedido P PD = Except.ok res →
      res.pedidos_row.valor_faturado = P.totalVenda ∧
      res.pedidos_row.valor_produtos_custo = calculate_total_product_cost PD P ∧
      res.pedidos_row.valor_lucro =
        res.pedidos_row.valor_faturado - res.pedidos_row.valor_produtos_custo) := by
  constructor
  · intro item PD tp td produto d hf h
    obtain ⟨h1, h2, h3, hid, hnome, hcusto, hcatp, hcats, hq, hsem, hdpu, hdp, hdped, hdpedu,
      hdtu, hdt, hcom, hlucro, htsem, htfat, htcusto, htlucro⟩ :=
      process_item_ok_some_eq item PD tp td produto d hf h
    refine ⟨hcusto, hsem, ?_, ?_, hlucro, ?_, ?_, ?_, ?_, ?_, ?_, ?_⟩
    · rw [hdtu, hdpu, hdpedu]
    · rw [hcom, hdtu]
      ring
    · rw [htcusto, hq]
    · rw [htsem, hq]
    · rw [htfat, hq]
    · rw [htlucro, htfat, htcusto, hlucro, hq]
      ring
    · rw [hdp, hq]
    · rw [hdpedu, hq, div_mul_cancel₀ _ h3]
    · rw [hdt, hdtu, hdp, hdpedu, hq]
      field_simp
  · intro P PD res h
    obtain ⟨v, rows, hsd, hpi, hres⟩ := process_pedido_ok_eq P PD res h
    subst hres
    exact ⟨rfl, rfl, rfl⟩

/-- Witness for C5: the discounted item `(valor 100, qty 2, 10%)` with an
order-discount share of 20 satisfies the unit equations, and the sample
order's profit figures come out as `100 - 40 = 60`. -/
theorem line_item_and_order_equations_witness :
    ([discountedProduto].find? (fun p => p.id == discountedItem.idProduto) = some discountedProduto) ∧
    process_item discountedItem [discountedProduto] 200 20 = Except.ok (some discountedItemData) ∧
    discountedItemData.valor_com_desconto_und =
      discountedItemData.valor_sem_desconto_und - discountedItemData.desconto_total_und ∧
    discountedItemData.total_produto_valor_lucro =
      discountedItemData.produto_valor_lucro_und * discountedItemData.produto_quantidade ∧
    process_pedido samplePedido sampleCatalog =
      Except.ok { pedidos_row := sampleRow, itens_pedido_rows := [sampleItemData] } ∧
    sampleRow.valor_lucro = sampleRow.valor_faturado - sampleRow.valor_produtos_custo := by
  have hf : [discountedProduto].find? (fun p => p.id == discountedItem.idProduto) =
      some discountedProduto := by
    simp +decide [discountedProduto, discountedItem]
  have hproc : process_item discountedItem [discountedProduto] 200 20 =
      Except.ok (some discountedItemData) := by
    simp +decide [process_item, pydiv, calculate_item_discount, calculate_proportional_discount,
      split_categoria, splitAtSep, sepChars, stripChars, isStripChar,
      discountedItem, discountedProduto, discountedItemData, List.find?] <;> norm_num
  have hped : process_pedido samplePedido sampleCatalog =
      Except.ok { pedidos_row := sampleRow, itens_pedido_rows := [sampleItemData] } := by
    simp +decide [process_pedido, processItems, process_item, pydiv, calculate_item_discount,
      calculate_proportional_discount, calculate_total_product_cost,
      calculate_total_product_value_without_discount, sum_sem_desconto_go,
      calculate_total_pre_discount_value, calculate_pedido_discount, extract_total_discount,
      parsePyFloat, parseUnsigned, digitsVal, replacePercent, replaceComma,
      split_categoria, splitAtSep, sepChars, stripChars, isStripChar,
      samplePedido, sampleCatalog, sampleItem, sampleProduto, sampleRow, sampleItemData,
      List.find?] <;> norm_num
  refine ⟨hf, hproc, ?_, ?_, hped, ?_⟩
  · exact (line_item_and_order_equations.1 discountedItem [discountedProduto] 200 20
      discountedProduto discountedItemData hf hproc).2.2.2.1
  · exact (line_item_and_order_equations.1 discountedItem [discountedProduto] 200 20
      discountedProduto discountedItemData hf hproc).2.2.2.2.2.2.2.2.1
  · exact (line_item_and_order_equations.2 samplePedido sampleCatalog
      { pedidos_row := sampleRow, itens_pedido_rows := [sampleItemData] } hped).2.2

/-! ## C6: unresolvable products are excluded, the rest still processed -/

/-- C6: the emitted line-item facts are exactly one per item whose product
id resolves (unresolvable items are skipped, not fatal), and
`calculate_total_product_cost` sums `preco_custo * quantidade` over the
resolvable items only. -/
theorem missing_product_exclusion :
    (∀ (P : Pedido) (PD : List Produto) (tp td : ℚ) (rows : List ItemData),
      processItems P.itens PD tp td = Except.ok rows →
      rows.length =
        (P.itens.filter (fun it => (PD.find? (fun p => p.id == it.idProduto)).isSome)).length) ∧
    (∀ (P : Pedido) (PD : List Produto),
      calculate_total_product_cost PD P =
        ((P.itens.filter (fun it => (PD.find? (fun p => p.id == it.idProduto)).isSome)).map
          (fun it =>
            match PD.find? (fun p => p.id == it.idProduto) with
            | some p => p.preco_custo * it.quantidade
            | none => 0)).sum) := by
  constructor
  · exact fun P PD tp td rows h => processItems_ok_length P.itens PD tp td rows h
  · intro P PD
    unfold calculate_total_product_cost
    rw [cost_foldl_eq PD P.itens 0, zero_add]

/-- Witness for C6: a two-item order of which only the first product id
resolves yields exactly one line-item fact, and the total product cost is
the resolvable item's `40 * 1` only. -/
theorem missing_product_exclusion_witness :
    processItems twoItemPedido.itens oneProductCatalog
      (calculate_total_pre_discount_value twoItemPedido) (extract_total_discount twoItemPedido) =
      Except.ok [twoItemRowData] ∧
    ([twoItemRowData] : List ItemData).length =
      (twoItemPedido.itens.filter
        (fun it => (oneProductCatalog.find? (fun p => p.id == it.idProduto)).isSome)).length ∧
    (twoItemPedido.itens.filter
        (fun it => (oneProductCatalog.find? (fun p => p.id == it.idProduto)).isSome)).length = 1 ∧
    calculate_total_product_cost oneProductCatalog twoItemPedido = 40 := by
  have hpi : processItems twoItemPedido.itens oneProductCatalog
      (calculate_total_pre_discount_value twoItemPedido) (extract_total_discount twoItemPedido) =
      Except.ok [twoItemRowData] := by
    simp +decide [processItems, process_item, pydiv, calculate_item_discount,
      calculate_proportional_discount, calculate_total_pre_discount_value,
      extract_total_discount, parsePyFloat, parseUnsigned, digitsVal, replacePercent,
      replaceComma, split_categoria, splitAtSep, sepChars, stripChars, isStripChar,
      twoItemPedido, oneProductCatalog, twoItemRowData, List.find?] <;> norm_num
  refine ⟨hpi, missing_product_exclusion.1 twoItemPedido oneProductCatalog _ _ _ hpi, ?_, ?_⟩
  · simp +decide [twoItemPedido, oneProductCatalog, List.find?, List.filter_cons]
  · simp +decide [calculate_total_product_cost, twoItemPedido, oneProductCatalog,
      List.find?] <;> norm_num

/-! ## C9: the order-level pre-discount value ignores quantities -/

/-- C9 counterexample: in `halfQuantityPedido` (quantities 2 and 1/2) the
order-level `valor_produtos_sem_desconto` and the sum of the line items'
`total_produto_valor_sem_desconto` are both 30, so the claim's
"whenever some line item has quantity ≠ 1 the figures differ" fails. -/
theorem sem_desconto_quantity_counterexample :
    calculate_total_product_value_without_discount halfQuantityPedido = Except.ok 30 ∧
    (processItems halfQuantityPedido.itens halfQuantityCatalog
        (calculate_total_pre_discount_value halfQuantityPedido)
        (extract_total_discount halfQuantityPedido)).map
      (fun rows => (rows.map (fun r => r.total_produto_valor_sem_desconto)).sum) =
      Except.ok 30 ∧
    halfQuantityPedido.itens.map Item.quantidade = [2, 1 / 2] ∧
    ((2 : ℚ) ≠ 1) := by
  refine ⟨?_, ?_, ?_, by norm_num⟩
  · simp +decide [calculate_total_product_value_without_discount, sum_sem_desconto_go,
      pydiv, halfQuantityPedido] <;> norm_num
  · simp +decide [processItems, process_item, pydiv, calculate_item_discount,
      calculate_proportional_discount, calculate_total_pre_discount_value,
      extract_total_discount, parsePyFloat, parseUnsigned, digitsVal, replacePercent,
      replaceComma, split_categoria, splitAtSep, sepChars, stripChars, isStripChar,
      halfQuantityPedido, halfQuantityCatalog, List.find?, Except.map] <;> norm_num
  · simp +decide [halfQuantityPedido]

/-- C9 amended: the order fact's `valor_produtos_sem_desconto` is the sum
over all line items — resolvable or not — of `valor / (1 - desconto/100)`
with no multiplication by quantity, while the sum of the line items'
`total_produto_valor_sem_desconto` figures is the quantity-weighted sum
over the resolvable items only; the two therefore need not agree (they
differ exactly when those two sums differ, but quantities ≠ 1 alone do not
force a difference). -/
theorem sem_desconto_sums :
    (∀ (P : Pedido) (t : ℚ),
      calculate_total_product_value_without_discount P = Except.ok t →
      t = (P.itens.map (fun it => it.valor / (1 - it.desconto / 100))).sum) ∧
    (∀ (P : Pedido) (PD : List Produto) (tp td : ℚ) (rows : List ItemData),
      processItems P.itens PD tp td = Except.ok rows →
      (rows.map (fun r => r.total_produto_valor_sem_desconto)).sum =
        ((P.itens.filter (fun it => (PD.find? (fun p => p.id == it.idProduto)).isSome)).map
          (fun it => it.valor / (1 - it.desconto / 100) * it.quantidade)).sum) := by
  constructor
  · intro P t h
    simpa using sum_sem_desconto_go_ok P.itens 0 t h
  · intro P PD tp td rows h
    rw [processItems_ok_sem_map P.itens PD tp td rows h]

/-- Witness for C9's amended characterisation, on `halfQuantityPedido`. -/
theorem sem_desconto_sums_witness :
    calculate_total_product_value_without_discount halfQuantityPedido = Except.ok 30 ∧
    ((30 : ℚ) =
      (halfQuantityPedido.itens.map (fun it => it.valor / (1 - it.desconto / 100))).sum) := by
  have hsd : calculate_total_product_value_without_discount halfQuantityPedido = Except.ok 30 := by
    simp +decide [calculate_total_product_value_without_discount, sum_sem_desconto_go,
      pydiv, halfQuantityPedido] <;> norm_num
  exact ⟨hsd, sem_desconto_sums.1 halfQuantityPedido 30 hsd⟩

/-! ## C10: a zero-quantity resolvable item aborts the whole pass -/

/-- C10: an order containing a resolvable line item of quantity 0 makes
the pass divide by zero (at line 191, or already at line 158 when the
order's total pre-discount value is 0), so `process_pedido` raises
`ZeroDivisionError` and nothing is handed to the sink: no order fact and
no line-item fact rows are produced. -/
theorem zero_quantity_aborts_pass (P : Pedido) (PD : List Produto)
    (h : ∃ it ∈ P.itens, it.quantidade = 0 ∧
      (PD.find? (fun p => p.id == it.idProduto)).isSome = true) :
    process_pedido P PD = Except.error Err.zeroDivision ∧
    ∀ sink : SinkBehavior, (run_pass P PD sink).2 = [] := by
  have hmain : process_pedido P PD = Except.error Err.zeroDivision := by
    unfold process_pedido
    dsimp only
    cases hsd : calculate_total_product_value_without_discount P with
    | error e =>
      dsimp only
      rw [sum_sem_desconto_go_error P.itens 0 e hsd]
    | ok v =>
      dsimp only
      rw [processItems_zero_qty_error P.itens PD _ _ h]
  refine ⟨hmain, fun sink => ?_⟩
  unfold run_pass
  rw [hmain]

/-- Witness for C10 on `zeroQtyPedido`: the pass aborts with the division
error and the sink receives nothing. -/
theorem zero_quantity_aborts_pass_witness :
    process_pedido zeroQtyPedido zeroQtyCatalog = Except.error Err.zeroDivision ∧
    (run_pass zeroQtyPedido zeroQtyCatalog ⟨false, false⟩).2 = [] := by
  have hW : ∃ it ∈ zeroQtyPedido.itens, it.quantidade = 0 ∧
      (zeroQtyCatalog.find? (fun p => p.id == it.idProduto)).isSome = true := by
    refine ⟨{ idProduto := "p1", descricao := "Z", valor := 5, quantidade := 0, desconto := 0 },
      ?_, rfl, ?_⟩
    · simp [zeroQtyPedido]
    · decide
  exact ⟨(zero_quantity_aborts_pass zeroQtyPedido zeroQtyCatalog hW).1,
    (zero_quantity_aborts_pass zeroQtyPedido zeroQtyCatalog hW).2 ⟨false, false⟩⟩

/-! ## C7: category splitting -/

lemma splitAtSep_none_iff (l : List Char) : splitAtSep l = none ↔ occursSep l = false := by
  induction l with
  | nil => simp [splitAtSep, occursSep]
  | cons c rest ih =>
    simp only [splitAtSep, occursSep]
    by_cases hc : (c :: rest).take 4 = sepChars
    · simp [hc]
    · rw [if_neg hc, if_neg hc]
      cases hs : splitAtSep rest with
      | none => simp [ih.mp hs]
      | some p =>
        have hb : occursSep rest = true := by
          cases hb : occursSep rest with
          | false =>
            rw [ih.mpr hb] at hs
            exact Option.noConfusion hs
          | true => rfl
        simp [hb]

lemma splitAtSep_some_eq (l : List Char) (b a : List Char)
    (h : splitAtSep l = some (b, a)) :
    l = b ++ sepChars ++ a ∧ occursSep b = false := by
  induction l generalizing b a with
  | nil => simp [splitAtSep] at h
  | cons c rest ih =>
    simp only [splitAtSep] at h
    by_cases hc : (c :: rest).take 4 = sepChars
    · rw [if_pos hc] at h
      simp only [Option.some.injEq, Prod.mk.injEq] at h
      obtain ⟨hb, ha⟩ := h
      subst hb
      subst ha
      constructor
      · conv_lhs => rw [← List.take_append_drop 4 (c :: rest)]
        rw [hc]
        simp
      · simp [occursSep]
    · rw [if_neg hc] at h
      cases hs : splitAtSep rest with
      | none =>
        rw [hs] at h
        exact absurd h (by simp)
      | some p =>
        rw [hs] at h
        simp only [Option.some.injEq, Prod.mk.injEq] at h
        obtain ⟨hb, ha⟩ := h
        subst hb
        subst ha
        obtain ⟨hl, hocc⟩ := ih p.1 p.2 (by rw [hs])
        constructor
        · simp [hl]
        · simp only [occursSep]
          have hcond : ¬ (c :: p.1).take 4 = sepChars := by
            intro heq
            have hlen : 3 ≤ p.1.length := by
              have hl4 := congrArg List.length heq
              simp only [List.length_take, List.length_cons, sepChars, List.length] at hl4
              omega
            apply hc
            rw [hl]
            have h34 : (p.1 ++ (sepChars ++ p.2)).take 3 = p.1.take 3 :=
              List.take_append_of_le_length hlen
            rw [List.take_succ_cons] at heq ⊢
            rw [List.append_assoc, h34]
            exact heq
          rw [if_neg hcond]
          exact hocc

/-- C7 counterexample: on `" A >> B"` the code strips the text before the
separator too, producing principal `"A"`, while the claim (which trims
only the secondary part) requires principal `" A"`. -/
theorem split_categoria_untrimmed_counterexample :
    split_categoria " A >> B" = ("A", "B") ∧ (("A" : String) ≠ " A") := by
  constructor
  · decide
  · decide

/-- C7 amended: when `" >> "` occurs in the category string, the string
decomposes as `before ++ " >> " ++ after` at the first occurrence (the
`before` part is separator-free), the principal category is `before`
trimmed (the code strips both slices, not only the secondary one) and the
secondary category is `after` trimmed; when the separator does not occur,
the whole (untrimmed) string is the principal category and the secondary
category is empty. -/
theorem split_categoria_amended_spec :
    (∀ s : String, splitAtSep s.data = none → split_categoria s = (s, "")) ∧
    (∀ (s : String) (b a : List Char), splitAtSep s.data = some (b, a) →
      s.data = b ++ sepChars ++ a ∧ occursSep b = false ∧
      split_categoria s = (String.mk (stripChars b), String.mk (stripChars a))) ∧
    (∀ l : List Char, splitAtSep l = none ↔ occursSep l = false) := by
  refine ⟨?_, ?_, splitAtSep_none_iff⟩
  · intro s h
    unfold split_categoria
    rw [h]
  · intro s b a h
    obtain ⟨hl, hocc⟩ := splitAtSep_some_eq s.data b a h
    refine ⟨hl, hocc, ?_⟩
    unfold split_categoria
    rw [h]

/-- Witness for C7's amended characterisation on the spec's examples. -/
theorem split_categoria_amended_spec_witness :
    splitAtSep ("Eletrônicos >> Celulares" : String).data =
      some (("Eletrônicos" : String).data, ("Celulares" : String).data) ∧
    split_categoria "Eletrônicos >> Celulares" =
      (String.mk (stripChars ("Eletrônicos" : String).data),
       String.mk (stripChars ("Celulares" : String).data)) ∧
    String.mk (stripChars ("Eletrônicos" : String).data) = "Eletrônicos" ∧
    splitAtSep ("Eletrônicos" : String).data = none ∧
    split_categoria "Eletrônicos" = ("Eletrônicos", "") := by
  refine ⟨by decide, ?_, by decide, by decide, ?_⟩
  · exact ((split_categoria_amended_spec.2.1) "Eletrônicos >> Celulares"
      ("Eletrônicos" : String).data ("Celulares" : String).data (by decide)).2.2
  · exact (split_categoria_amended_spec.1) "Eletrônicos" (by decide)

/-! ## C8: what reaches the sink -/

/-- C8 amended: a pass either hands both batches to the sink (when
everything succeeds), or hands nothing (any computation failure, or a
failure of the first insert), or — when the line-item insert fails after
the order-row insert succeeded — leaves exactly the order-fact batch
written: the two sequential inserts of lines 364-365 are not atomic. -/
theorem run_pass_write_shapes (P : Pedido) (PD : List Produto) (s : SinkBehavior) :
    ((run_pass P PD s).2 = [] ∧ (run_pass P PD s).1 ≠ Except.ok ()) ∨
    (∃ r rows, (run_pass P PD s).2 = [Batch.pedidos r, Batch.itens rows] ∧
      (run_pass P PD s).1 = Except.ok ()) ∨
    (∃ r, (run_pass P PD s).2 = [Batch.pedidos r] ∧ s.itensInsertFails = true ∧
      (run_pass P PD s).1 = Except.error Err.insertFailure) := by
  unfold run_pass
  cases hp : process_pedido P PD with
  | error e => simp
  | ok rows =>
    rcases s with ⟨pf, itf⟩
    cases pf
    · cases itf
      · right
        left
        exact ⟨rows.pedidos_row, rows.itens_pedido_rows, by simp [insert_rows_to_table], by
          simp [insert_rows_to_table]⟩
      · right
        right
        exact ⟨rows.pedidos_row, by simp [insert_rows_to_table], rfl, by
          simp [insert_rows_to_table]⟩
    · left
      simp [insert_rows_to_table]

/-- C8 counterexample: on the fully successful sample order, a sink whose
line-item insert fails (after the order-row insert succeeded) leaves
exactly the order-fact batch written — a failure during the pass that
leaves only one of the two row sets written. -/
theorem itens_insert_failure_writes_order_row_only :
    (run_pass samplePedido sampleCatalog ⟨false, true⟩).1 = Except.error Err.insertFailure ∧
    (run_pass samplePedido sampleCatalog ⟨false, true⟩).2 = [Batch.pedidos sampleRow] := by
  have hped : process_pedido samplePedido sampleCatalog =
      Except.ok { pedidos_row := sampleRow, itens_pedido_rows := [sampleItemData] } := by
    simp +decide [process_pedido, processItems, process_item, pydiv, calculate_item_discount,
      calculate_proportional_discount, calculate_total_product_cost,
      calculate_total_product_value_without_discount, sum_sem_desconto_go,
      calculate_total_pre_discount_value, calculate_pedido_discount, extract_total_discount,
      parsePyFloat, parseUnsigned, digitsVal, replacePercent, replaceComma,
      split_categoria, splitAtSep, sepChars, stripChars, isStripChar,
      samplePedido, sampleCatalog, sampleItem, sampleProduto, sampleRow, sampleItemData,
      List.find?] <;> norm_num
  unfold run_pass
  rw [hped]
  simp [insert_rows_to_table]

end Z316
